import Mathlib

/-!
Shallow embedding of the EPTB clinical decision-support tool
(`src/eptb_tool.py`), restricted to the parts with decision logic:
the renal classifier, the eGFR computation, the duration / dosage /
regimen-structure checks of the Pharmacotherapy Evaluation page, and the
interaction checker of the Side Effects page.

Modelling conventions:
- Python floats become `ℚ` (all thresholds and inputs in the source are
  exact decimals, so rational arithmetic reproduces the comparisons).
- The single `st.session_state.patient_data` dict becomes the structure
  `PatientData` with one `Option` field per key the evaluation pages read;
  `dict.get(key, default)` becomes `Option.getD`, and a direct index
  `data[key]` (which raises `KeyError` when absent) becomes `dictGet`,
  returning `Except`.
- A `st.error` / `st.warning` / `st.success` / `st.info` / `st.write` call
  on an evaluation page becomes one `Finding`. Numeric values interpolated
  into the displayed f-strings are elided from the message text; string
  values that require a dict lookup (the `data[...]` index of the
  eptb type inside the duration messages) are kept, because that lookup
  is the only way the evaluation can abort.
-/

namespace EPTB

/-- Sex of the patient, from the `selectbox("Sex", ["Male", "Female"])`
input on the Patient Info page. -/
inductive Sex
  | Male
  | Female
deriving DecidableEq, Repr

/-- Kind of message a check displays: `st.success` → `Pass`,
`st.warning` → `Warning`, `st.error` → `Fail`, `st.info` / `st.write`
→ `Info`. -/
inductive Verdict
  | Pass
  | Warning
  | Fail
  | Info
deriving DecidableEq, Repr

/-- One atomic verdict displayed by an evaluation page. -/
structure Finding where
  category : String
  verdict : Verdict
  message : String
deriving DecidableEq, Repr

/-- `check_renal_adjustment` (lines 29-34): returns
(needs_adjustment, message). -/
def check_renal_adjustment (egfr : ℚ) : Bool × String :=
  if egfr < 30 then
    (true, "Severe Renal Impairment: Pyrazinamide and Ethambutol require dose/frequency adjustment (usually 3x/week).")
  else if egfr < 60 then
    (true, "Moderate Renal Impairment: Monitor closely.")
  else
    (false, "Renal function acceptable.")

/-- The eGFR computation on the Patient Info page (lines 94-98):
`sex_factor = 0.85 if sex == "Female" else 1.0` and
`egfr = ((140 - age) * wt * sex_factor) / (72 * creat)`. -/
def egfr_calc (age wt : ℚ) (sex : Sex) (creat : ℚ) : ℚ :=
  let sex_factor : ℚ := if sex = Sex.Female then 0.85 else 1.0
  ((140 - age) * wt * sex_factor) / (72 * creat)

/-- Cockcroft-Gault formula exactly as the specification words it, to be
compared with `egfr_calc` translated from the source. -/
def estimate_egfr_spec (age wt : ℚ) (sex : Sex) (creat : ℚ) : ℚ :=
  ((140 - age) * wt * (if sex = Sex.Female then 0.85 else 1.0)) / (72 * creat)

/-- The list `["TB Meningitis", "Bone/Joint TB"]` that the source tests
membership in (line 135 and line 177). -/
def severe_types : List String := ["TB Meningitis", "Bone/Joint TB"]

/-- `req_duration` assignment on the EPTB Type and Severity page
(lines 135-140): 12 months for the severe types, else 6. -/
def req_duration (eptb_type : String) : ℕ :=
  if severe_types.contains eptb_type then 12 else 6

/-- Default Rifampicin dose proposed on the Prescribed Regimen page
(line 164): `600 if data.get('weight', 60) > 50 else 450`. -/
def default_dose_R (weight : ℚ) : ℚ :=
  if weight > 50 then 600 else 450

/-- The session dict `st.session_state.patient_data`, restricted to the
keys the evaluation pages read. Every field is `Option`: a key may be
absent from the dict. -/
structure PatientData where
  eptb_type : Option String
  severity : Option String
  ip_duration : Option ℕ
  cp_duration : Option ℕ
  weight : Option ℚ
  dose_R : Option ℚ
  dose_Z : Option ℚ
  ip_drugs : Option (List String)
  hiv_status : Option String
deriving DecidableEq, Repr

/-- Python `data[key]`: raises `KeyError` when the key is absent. -/
def dictGet {α : Type} (o : Option α) : Except String α :=
  match o with
  | some v => Except.ok v
  | none => Except.error "KeyError"

/-- Findings of the duration check (lines 183-192). The severe-type Fail
branch and the Pass branch interpolate `data['eptb_type']` into the
message. -/
def dur_fail_severe (t : String) : Finding :=
  ⟨"Duration", Verdict.Fail, s!"INCORRECT DURATION: Patient has {t}. WHO Guidelines mandate 9-12 months."⟩

/-- Standard-type Fail finding of the duration check (line 188). -/
def dur_fail_standard : Finding :=
  ⟨"Duration", Verdict.Fail, "INCORRECT DURATION: Standard EPTB requires minimum 6 months."⟩

/-- Pass finding of the duration check (line 191). -/
def dur_pass (t : String) : Finding :=
  ⟨"Duration", Verdict.Pass, s!"Duration is appropriate for {t}."⟩

/-- Duration check of the Pharmacotherapy Eval page (lines 177-192).
`is_severe` comes from `data.get('eptb_type') in [...]` (absent key →
not severe), `total` from `data.get('ip_duration', 0) +
data.get('cp_duration', 0)`. The first and third branches index
`data['eptb_type']` directly for the message, which raises when the key
is absent. -/
def duration_check (eptb_type : Option String) (total : ℕ) : Except String Finding :=
  let is_severe : Bool := eptb_type.any (fun t => severe_types.contains t)
  if is_severe = true ∧ total < 9 then do
    let t ← dictGet eptb_type
    pure (dur_fail_severe t)
  else if is_severe = false ∧ total < 6 then
    pure dur_fail_standard
  else do
    let t ← dictGet eptb_type
    pure (dur_pass t)

/-- Underdose warning of the Rifampicin check (line 200). -/
def rif_under : Finding :=
  ⟨"Rifampicin", Verdict.Warning, "Rifampicin Potential Underdose. Weight > 50kg usually requires 600mg."⟩

/-- Overdose warning of the Rifampicin check (line 202). -/
def rif_over : Finding :=
  ⟨"Rifampicin", Verdict.Warning, "Rifampicin Potential Overdose. Weight < 50kg usually requires 450mg."⟩

/-- Pass finding of the Rifampicin check (line 204). -/
def rif_ok : Finding :=
  ⟨"Rifampicin", Verdict.Pass, "Rifampicin dose appears correct for weight."⟩

/-- Rifampicin check (lines 198-204). -/
def rifampicin_check (weight r_dose : ℚ) : Finding :=
  if weight > 50 ∧ r_dose < 600 then rif_under
  else if weight < 50 ∧ r_dose ≥ 600 then rif_over
  else rif_ok

/-- Low warning of the Pyrazinamide check (line 210). -/
def pza_low : Finding :=
  ⟨"Pyrazinamide", Verdict.Warning, "Pyrazinamide Low. Risk of subtherapeutic treatment."⟩

/-- High warning of the Pyrazinamide check (line 212). -/
def pza_high : Finding :=
  ⟨"Pyrazinamide", Verdict.Warning, "Pyrazinamide High. Risk of Hepatotoxicity."⟩

/-- Pass finding of the Pyrazinamide check (line 214). -/
def pza_ok : Finding :=
  ⟨"Pyrazinamide", Verdict.Pass, "Pyrazinamide dose acceptable."⟩

/-- Pyrazinamide check (lines 207-214): `z_target = weight * 25`,
low below 80 percent of target, high above 120 percent. -/
def pyrazinamide_check (weight z_dose : ℚ) : Finding :=
  let z_target := weight * 25
  if z_dose < z_target * 0.8 then pza_low
  else if z_dose > z_target * 1.2 then pza_high
  else pza_ok

/-- Meningitis/Streptomycin note of the regimen-structure section
(line 219). -/
def regimen_strep_note : Finding :=
  ⟨"RegimenStructure", Verdict.Info, "WHO suggests considering Streptomycin in place of Ethambutol for Meningitis in certain cases."⟩

/-- Unconditional structure summary (line 221). -/
def regimen_structure_ok : Finding :=
  ⟨"RegimenStructure", Verdict.Pass, "Intensive plus Continuation matches standard protocol structures."⟩

/-- Regimen-structure section of the Pharmacotherapy Eval page
(lines 217-221). -/
def regimen_structure_check (d : PatientData) : List Finding :=
  (if d.eptb_type = some "TB Meningitis" ∧ (d.ip_drugs.getD []).contains "Streptomycin (S)" = false then
    [regimen_strep_note]
  else []) ++ [regimen_structure_ok]

/-- The Pharmacotherapy Evaluation page (lines 171-221) as one function
from the session dict to the ordered sequence of findings it displays;
`Except.error` models an uncaught Python `KeyError`. -/
def pharmacotherapy_eval (d : PatientData) : Except String (List Finding) := do
  let total := d.ip_duration.getD 0 + d.cp_duration.getD 0
  let weight := d.weight.getD 60
  let durationFinding ← duration_check d.eptb_type total
  let rifFinding := rifampicin_check weight (d.dose_R.getD 0)
  let pzaFinding := pyrazinamide_check weight (d.dose_Z.getD 0)
  pure ([durationFinding, rifFinding, pzaFinding] ++ regimen_structure_check d)

/-- HIV interaction finding (line 247, an `st.error`). -/
def hiv_interaction : Finding :=
  ⟨"Interaction", Verdict.Fail, "HIV INTERACTION: Rifampicin significantly lowers levels of Protease Inhibitors and NNRTIs. Dosage adjustment or switch to Rifabutin may be required."⟩

/-- Unconditional diabetes note (line 250, an `st.write`). -/
def diabetes_note : Finding :=
  ⟨"Interaction", Verdict.Info, "Diabetes: Rifampicin may reduce efficacy of oral hypoglycemics (sulfonylureas). Monitor Glucose."⟩

/-- Interaction Checker column of the Side Effects page (lines 244-250):
the HIV warning is shown when `data.get('hiv_status') == "Positive"`,
and the diabetes note is always written. -/
def interaction_check (d : PatientData) : List Finding :=
  (if d.hiv_status = some "Positive" then [hiv_interaction] else []) ++ [diabetes_note]

/-- `d` with its severity key overwritten, all other keys unchanged. -/
def setSeverity (d : PatientData) (s : Option String) : PatientData :=
  { d with severity := s }

/-- `d` with absent dose and duration keys replaced by the value 0 that
`data.get(key, 0)` supplies for them. -/
def fillAbsentNumericZero (d : PatientData) : PatientData :=
  { d with
    ip_duration := some (d.ip_duration.getD 0)
    cp_duration := some (d.cp_duration.getD 0)
    dose_R := some (d.dose_R.getD 0)
    dose_Z := some (d.dose_Z.getD 0) }

/-- The exact value the source computes for the worked example of the
specification: age 25, weight 60, Male, creatinine 0.9. -/
lemma egfr_calc_example : egfr_calc 25 60 Sex.Male 0.9 = 2875 / 27 := by
  simp [egfr_calc]
  norm_num

/-- C1: the duration evaluator produces exactly one finding per
evaluation: Fail (severe message) when the eptb type is in the severe
list and intensive + continuation < 9; Fail (standard message) when the
type is not severe and the total < 6; Pass in every other case. In
particular TB Meningitis with 2 + 4 months fails, with 2 + 10 passes;
Pleural TB with 2 + 4 passes and with 2 + 3 fails. -/
theorem duration_rule_spec (t : String) (ip cp : ℕ) :
    (severe_types.contains t = true ∧ ip + cp < 9 →
      duration_check (some t) (ip + cp) = Except.ok (dur_fail_severe t)) ∧
    (severe_types.contains t = false ∧ ip + cp < 6 →
      duration_check (some t) (ip + cp) = Except.ok dur_fail_standard) ∧
    (severe_types.contains t = true ∧ 9 ≤ ip + cp →
      duration_check (some t) (ip + cp) = Except.ok (dur_pass t)) ∧
    (severe_types.contains t = false ∧ 6 ≤ ip + cp →
      duration_check (some t) (ip + cp) = Except.ok (dur_pass t)) ∧
    duration_check (some "TB Meningitis") (2 + 4) = Except.ok (dur_fail_severe "TB Meningitis") ∧
    duration_check (some "TB Meningitis") (2 + 10) = Except.ok (dur_pass "TB Meningitis") ∧
    duration_check (some "Pleural TB") (2 + 4) = Except.ok (dur_pass "Pleural TB") ∧
    duration_check (some "Pleural TB") (2 + 3) = Except.ok dur_fail_standard := by
  refine ⟨?_, ?_, ?_, ?_, rfl, rfl, rfl, rfl⟩
  · rintro ⟨hs, h9⟩
    have hm : t ∈ severe_types := by simpa using hs
    simp [duration_check, dictGet, hm, h9]
  · rintro ⟨hs, h6⟩
    have hm : t ∉ severe_types := by simpa using hs
    simp [duration_check, dictGet, hm, h6]
    rfl
  · rintro ⟨hs, h9⟩
    have hm : t ∈ severe_types := by simpa using hs
    simp [duration_check, dictGet, hm, Nat.not_lt.mpr h9]
  · rintro ⟨hs, h6⟩
    have hm : t ∉ severe_types := by simpa using hs
    simp [duration_check, dictGet, hm, Nat.not_lt.mpr h6]

/-- Witness for C1: the severe branch of the duration rule applied to
the concrete input Bone/Joint TB, 2 + 4 months. -/
theorem duration_rule_spec_witness :
    duration_check (some "Bone/Joint TB") (2 + 4) = Except.ok (dur_fail_severe "Bone/Joint TB") :=
  (duration_rule_spec "Bone/Joint TB" 2 4).1 ⟨rfl, by decide⟩

/-- C2 counterexample: on the input age 25, weight 60, Male, creatinine
0.9, the eGFR the source computes is 2875/27 ≈ 106.48, which is not
within 0.1 of the value 177.8 the claim states. -/
theorem egfr_example_not_177 :
    ¬ (|egfr_calc 25 60 Sex.Male 0.9 - 177.8| ≤ 0.1) := by
  rw [egfr_calc_example, abs_sub_comm, abs_of_pos (by norm_num)]
  norm_num

/-- C2 amended: on the input age 25, weight 60, Male, creatinine 0.9,
the eGFR the source computes is within 0.1 of 106.5, and
`check_renal_adjustment` applied to that computed value returns
needs_adjustment = false. -/
theorem egfr_example_value_amended :
    |egfr_calc 25 60 Sex.Male 0.9 - 106.5| < 0.1 ∧
    (check_renal_adjustment (egfr_calc 25 60 Sex.Male 0.9)).1 = false := by
  constructor
  · rw [egfr_calc_example, abs_sub_comm, abs_of_pos (by norm_num)]
    norm_num
  · rw [egfr_calc_example]
    unfold check_renal_adjustment
    rw [if_neg (by norm_num), if_neg (by norm_num)]

/-- C3: `check_renal_adjustment` returns needs_adjustment true with the
severe-impairment message below 30, true with the moderate monitoring
message on [30, 60), and false with the acceptable message at 60 and
above; in particular 29.9 is severe, 30 is moderate and 60 is
acceptable. -/
theorem renal_classification_rule (egfr : ℚ) :
    (egfr < 30 → check_renal_adjustment egfr =
      (true, "Severe Renal Impairment: Pyrazinamide and Ethambutol require dose/frequency adjustment (usually 3x/week).")) ∧
    (30 ≤ egfr ∧ egfr < 60 → check_renal_adjustment egfr =
      (true, "Moderate Renal Impairment: Monitor closely.")) ∧
    (60 ≤ egfr → check_renal_adjustment egfr =
      (false, "Renal function acceptable.")) ∧
    check_renal_adjustment 29.9 =
      (true, "Severe Renal Impairment: Pyrazinamide and Ethambutol require dose/frequency adjustment (usually 3x/week).") ∧
    check_renal_adjustment 30 = (true, "Moderate Renal Impairment: Monitor closely.") ∧
    check_renal_adjustment 60 = (false, "Renal function acceptable.") := by
  refine ⟨fun h => ?_, fun h => ?_, fun h => ?_, ?_, ?_, ?_⟩
  · unfold check_renal_adjustment
    rw [if_pos h]
  · unfold check_renal_adjustment
    rw [if_neg (by linarith [h.1]), if_pos h.2]
  · unfold check_renal_adjustment
    rw [if_neg (by linarith), if_neg (by linarith)]
  · unfold check_renal_adjustment
    rw [if_pos (by norm_num)]
  · unfold check_renal_adjustment
    rw [if_neg (by norm_num), if_pos (by norm_num)]
  · unfold check_renal_adjustment
    rw [if_neg (by norm_num), if_neg (by norm_num)]

/-- Witness for C3: the severe band of the renal classifier applied to
the concrete eGFR value 25. -/
theorem renal_classification_rule_witness :
    check_renal_adjustment 25 =
      (true, "Severe Renal Impairment: Pyrazinamide and Ethambutol require dose/frequency adjustment (usually 3x/week).") :=
  (renal_classification_rule 25).1 (by norm_num)

/-- The three findings of the Rifampicin check are pairwise distinct. -/
lemma rif_under_ne_over : rif_under ≠ rif_over := by decide

/-- The underdose and Pass findings of the Rifampicin check differ. -/
lemma rif_under_ne_ok : rif_under ≠ rif_ok := by decide

/-- The overdose and Pass findings of the Rifampicin check differ. -/
lemma rif_over_ne_ok : rif_over ≠ rif_ok := by decide

/-- C4: the Rifampicin check warns of a potential underdose exactly when
weight > 50 and dose < 600, warns of a potential overdose exactly when
weight < 50 and dose ≥ 600, passes otherwise, and in particular passes
for every dose at weight exactly 50. -/
theorem rifampicin_rule (weight dose : ℚ) :
    (rifampicin_check weight dose = rif_under ↔ weight > 50 ∧ dose < 600) ∧
    (rifampicin_check weight dose = rif_over ↔ weight < 50 ∧ dose ≥ 600) ∧
    (¬ (weight > 50 ∧ dose < 600) ∧ ¬ (weight < 50 ∧ dose ≥ 600) →
      rifampicin_check weight dose = rif_ok) ∧
    (weight = 50 → rifampicin_check weight dose = rif_ok) := by
  unfold rifampicin_check
  split_ifs with h1 h2
  · refine ⟨iff_of_true rfl h1, iff_of_false rif_under_ne_over ?_, fun h => absurd h1 h.1, ?_⟩
    · rintro ⟨hlt, -⟩
      exact lt_asymm h1.1 hlt
    · intro h50
      rw [h50] at h1
      exact absurd h1.1 (lt_irrefl _)
  · refine ⟨iff_of_false (fun heq => rif_under_ne_over heq.symm) h1,
      iff_of_true rfl h2, fun h => absurd h2 h.2, ?_⟩
    intro h50
    rw [h50] at h2
    exact absurd h2.1 (lt_irrefl _)
  · exact ⟨iff_of_false (fun heq => rif_under_ne_ok heq.symm) h1,
      iff_of_false (fun heq => rif_over_ne_ok heq.symm) h2,
      fun _ => rfl, fun _ => rfl⟩

/-- Witness for C4: the four concrete examples of the specification,
obtained from the rule at weights 60, 40 and 50. -/
theorem rifampicin_rule_witness :
    rifampicin_check 60 600 = rif_ok ∧ rifampicin_check 60 450 = rif_under ∧
    rifampicin_check 40 600 = rif_over ∧ rifampicin_check 50 450 = rif_ok := by
  obtain ⟨-, -, hok, -⟩ := rifampicin_rule 60 600
  obtain ⟨hu, -, -, -⟩ := rifampicin_rule 60 450
  obtain ⟨-, ho, -, -⟩ := rifampicin_rule 40 600
  obtain ⟨-, -, -, hb⟩ := rifampicin_rule 50 450
  refine ⟨hok ⟨?_, ?_⟩, hu.mpr ⟨by norm_num, by norm_num⟩, ho.mpr ⟨by norm_num, by norm_num⟩, hb rfl⟩
  · rintro ⟨-, h⟩
    exact absurd h (by norm_num)
  · rintro ⟨h, -⟩
    exact absurd h (by norm_num)

/-- The low and high findings of the Pyrazinamide check differ. -/
lemma pza_low_ne_high : pza_low ≠ pza_high := by decide

/-- The low and Pass findings of the Pyrazinamide check differ. -/
lemma pza_low_ne_ok : pza_low ≠ pza_ok := by decide

/-- The high and Pass findings of the Pyrazinamide check differ. -/
lemma pza_high_ne_ok : pza_high ≠ pza_ok := by decide

/-- C5: with target = weight × 25, the Pyrazinamide check warns low
exactly when dose < 0.8 × target, warns high exactly when
dose > 1.2 × target, and passes otherwise, in particular at doses
exactly equal to 0.8 × target or 1.2 × target. Weight is nonnegative
per the declared input range 1-200 kg. -/
theorem pyrazinamide_rule (weight dose : ℚ) (hw : 0 ≤ weight) :
    (pyrazinamide_check weight dose = pza_low ↔ dose < weight * 25 * 0.8) ∧
    (pyrazinamide_check weight dose = pza_high ↔ dose > weight * 25 * 1.2) ∧
    (weight * 25 * 0.8 ≤ dose ∧ dose ≤ weight * 25 * 1.2 →
      pyrazinamide_check weight dose = pza_ok) ∧
    (dose = weight * 25 * 0.8 ∨ dose = weight * 25 * 1.2 →
      pyrazinamide_check weight dose = pza_ok) := by
  have hts : weight * 25 * 0.8 ≤ weight * 25 * 1.2 := by nlinarith
  simp only [pyrazinamide_check]
  split_ifs with h1 h2
  · refine ⟨iff_of_true rfl h1,
      iff_of_false pza_low_ne_high (lt_asymm (lt_of_lt_of_le h1 hts)),
      fun h => absurd h1 (not_lt.mpr h.1), ?_⟩
    rintro (h | h)
    · rw [h] at h1
      exact absurd h1 (lt_irrefl _)
    · rw [h] at h1
      exact absurd h1 (not_lt.mpr hts)
  · refine ⟨iff_of_false (fun heq => pza_low_ne_high heq.symm) h1,
      iff_of_true rfl h2, fun h => absurd h2 (not_lt.mpr h.2), ?_⟩
    rintro (h | h)
    · rw [h] at h2
      exact absurd h2 (not_lt.mpr hts)
    · rw [h] at h2
      exact absurd h2 (lt_irrefl _)
  · exact ⟨iff_of_false (fun heq => pza_low_ne_ok heq.symm) h1,
      iff_of_false (fun heq => pza_high_ne_ok heq.symm) h2,
      fun _ => rfl, fun _ => rfl⟩

/-- Witness for C5: at weight 60 the target is 1500; dose 1500 passes,
1100 warns low and 1900 warns high, by the rule at that weight. -/
theorem pyrazinamide_rule_witness :
    pyrazinamide_check 60 1500 = pza_ok ∧ pyrazinamide_check 60 1100 = pza_low ∧
    pyrazinamide_check 60 1900 = pza_high := by
  obtain ⟨-, -, hok, -⟩ := pyrazinamide_rule 60 1500 (by norm_num)
  obtain ⟨hlow, -, -, -⟩ := pyrazinamide_rule 60 1100 (by norm_num)
  obtain ⟨-, hhigh, -, -⟩ := pyrazinamide_rule 60 1900 (by norm_num)
  exact ⟨hok ⟨by norm_num, by norm_num⟩, hlow.mpr (by norm_num), hhigh.mpr (by norm_num)⟩

/-- C10: for every weight in the declared range 1-200 kg, the default
Rifampicin dose proposed on the regimen page (600 above 50 kg, else
450) passes the Rifampicin check. -/
theorem default_rifampicin_passes (w : ℚ) (h1 : 1 ≤ w) (h2 : w ≤ 200) :
    rifampicin_check w (default_dose_R w) = rif_ok := by
  unfold default_dose_R
  by_cases hw : w > 50
  · rw [if_pos hw]
    unfold rifampicin_check
    rw [if_neg ?hna, if_neg ?hnb]
    case hna =>
      rintro ⟨-, h⟩
      exact absurd h (by norm_num)
    case hnb =>
      rintro ⟨hlt, -⟩
      exact lt_asymm hw hlt
  · rw [if_neg hw]
    unfold rifampicin_check
    rw [if_neg ?hnc, if_neg ?hnd]
    case hnc =>
      rintro ⟨hgt, -⟩
      exact hw hgt
    case hnd =>
      rintro ⟨-, hge⟩
      exact absurd hge (by norm_num)

/-- Witness for C10: the default dose at the concrete weight 60 kg
passes the Rifampicin check. -/
theorem default_rifampicin_passes_witness :
    rifampicin_check 60 (default_dose_R 60) = rif_ok :=
  default_rifampicin_passes 60 (by norm_num) (by norm_num)

/-- C6: the eGFR the source computes coincides with the Cockcroft-Gault
formula as the specification words it, the sex factor is 0.85 for
Female and 1.0 otherwise, no rounding is applied, and under the input
constraint creatinine ≥ 0.1 the denominator is nonzero. -/
theorem egfr_formula_refinement (age wt : ℚ) (sex : Sex) (creat : ℚ)
    (hc : (0.1 : ℚ) ≤ creat) :
    egfr_calc age wt sex creat = estimate_egfr_spec age wt sex creat ∧
    egfr_calc age wt Sex.Female creat = ((140 - age) * wt * 0.85) / (72 * creat) ∧
    egfr_calc age wt Sex.Male creat = ((140 - age) * wt * 1.0) / (72 * creat) ∧
    72 * creat ≠ 0 := by
  refine ⟨rfl, by simp [egfr_calc], by simp [egfr_calc], ?_⟩
  have hpos : (0 : ℚ) < 72 * creat := by nlinarith
  exact ne_of_gt hpos

/-- Witness for C6: the refinement at the concrete input age 25,
weight 60, Male, creatinine 0.9. -/
theorem egfr_formula_refinement_witness :
    egfr_calc 25 60 Sex.Male 0.9 = estimate_egfr_spec 25 60 Sex.Male 0.9 ∧
    egfr_calc 25 60 Sex.Female 0.9 = ((140 - 25) * 60 * 0.85) / (72 * 0.9) ∧
    egfr_calc 25 60 Sex.Male 0.9 = ((140 - 25) * 60 * 1.0) / (72 * 0.9) ∧
    (72 : ℚ) * 0.9 ≠ 0 :=
  egfr_formula_refinement 25 60 Sex.Male 0.9 (by norm_num)

/-- The HIV interaction finding and the diabetes note differ. -/
lemma hiv_interaction_ne_diabetes : hiv_interaction ≠ diabetes_note := by decide

/-- C9: the HIV interaction finding is emitted if and only if the
hiv_status field holds Positive, while the diabetes/sulfonylurea note
is emitted on every run, whatever the patient record holds. -/
theorem interaction_rule (d : PatientData) :
    (hiv_interaction ∈ interaction_check d ↔ d.hiv_status = some "Positive") ∧
    diabetes_note ∈ interaction_check d := by
  unfold interaction_check
  by_cases h : d.hiv_status = some "Positive"
  · rw [if_pos h]
    exact ⟨iff_of_true (by simp) h, by simp⟩
  · rw [if_neg h]
    exact ⟨iff_of_false (by simp [hiv_interaction_ne_diabetes]) h, by simp⟩

/-- A concrete HIV-positive patient record, every field present. -/
def hivPositiveExample : PatientData :=
  ⟨some "Pleural TB", some "Moderate", some 2, some 4, some 60, some 600, some 1500,
    some ["Isoniazid (H)", "Rifampicin (R)", "Pyrazinamide (Z)", "Ethambutol (E)"],
    some "Positive"⟩

/-- Witness for C9: on the HIV-positive record both the HIV interaction
finding and the diabetes note appear. -/
theorem interaction_rule_witness :
    hiv_interaction ∈ interaction_check hivPositiveExample ∧
    diabetes_note ∈ interaction_check hivPositiveExample := by
  obtain ⟨hiff, hdiab⟩ := interaction_rule hivPositiveExample
  exact ⟨hiff.mpr rfl, hdiab⟩

/-- C8: the required duration is a function of the eptb type alone
(12 for the severe types, 6 otherwise), and neither the
pharmacotherapy evaluation nor the interaction checker reads the
severity field: two runs whose inputs differ only in severity produce
identical finding sequences. -/
theorem severity_noninterference (d : PatientData) (s1 s2 : Option String) :
    pharmacotherapy_eval (setSeverity d s1) = pharmacotherapy_eval (setSeverity d s2) ∧
    interaction_check (setSeverity d s1) = interaction_check (setSeverity d s2) ∧
    (∀ t : String, severe_types.contains t = true → req_duration t = 12) ∧
    (∀ t : String, severe_types.contains t = false → req_duration t = 6) := by
  obtain ⟨et, sv, ipd, cpd, w, dr, dz, drugs, hiv⟩ := d
  refine ⟨rfl, rfl, fun t ht => ?_, fun t ht => ?_⟩
  · have hm : t ∈ severe_types := by simpa using ht
    simp [req_duration, hm]
  · have hm : t ∉ severe_types := by simpa using ht
    simp [req_duration, hm]

/-- A concrete severe-type patient record used to instantiate the
noninterference statement. -/
def severityExample : PatientData :=
  ⟨some "TB Meningitis", some "Mild", some 2, some 7, some 55, some 600, some 1400,
    some ["Isoniazid (H)", "Rifampicin (R)", "Pyrazinamide (Z)", "Ethambutol (E)"],
    some "Negative"⟩

/-- Witness for C8: flipping severity from Mild to Life-threatening on
a concrete record changes nothing, and the required durations are 12
for TB Meningitis and 6 for Pleural TB. -/
theorem severity_noninterference_witness :
    pharmacotherapy_eval (setSeverity severityExample (some "Mild")) =
      pharmacotherapy_eval (setSeverity severityExample (some "Life-threatening")) ∧
    interaction_check (setSeverity severityExample (some "Mild")) =
      interaction_check (setSeverity severityExample (some "Life-threatening")) ∧
    req_duration "TB Meningitis" = 12 ∧
    req_duration "Pleural TB" = 6 := by
  obtain ⟨h1, h2, h3, h4⟩ :=
    severity_noninterference severityExample (some "Mild") (some "Life-threatening")
  exact ⟨h1, h2, h3 "TB Meningitis" rfl, h4 "Pleural TB" rfl⟩

/-- The evaluation page in closed form: the duration finding (the only
fallible step) mapped into the full finding sequence. -/
lemma pharmacotherapy_eval_eq (d : PatientData) :
    pharmacotherapy_eval d =
      (duration_check d.eptb_type (d.ip_duration.getD 0 + d.cp_duration.getD 0)).map
        (fun df =>
          [df, rifampicin_check (d.weight.getD 60) (d.dose_R.getD 0),
            pyrazinamide_check (d.weight.getD 60) (d.dose_Z.getD 0)] ++
          regimen_structure_check d) := by
  unfold pharmacotherapy_eval
  cases h : duration_check d.eptb_type (d.ip_duration.getD 0 + d.cp_duration.getD 0) <;>
    simp [h, Except.map, Bind.bind, Except.bind, Pure.pure, Except.pure]

/-- On a present eptb type the duration check always returns a
finding, never an error. -/
lemma duration_check_some_ok (t : String) (total : ℕ) :
    ∃ f, duration_check (some t) total = Except.ok f := by
  simp only [duration_check]
  split_ifs <;> exact ⟨_, rfl⟩

/-- A concrete record within the declared ranges whose Rifampicin dose
key is absent: weight 40 kg, Pleural TB, 2 + 4 months, Pyrazinamide
1000 mg. -/
def c7data : PatientData :=
  ⟨some "Pleural TB", some "Moderate", some 2, some 4, some 40, none, some 1000,
    some ["Isoniazid (H)", "Rifampicin (R)", "Pyrazinamide (Z)", "Ethambutol (E)"],
    some "Negative"⟩

/-- C7 counterexample: on a record within the declared ranges whose
Rifampicin dose key is absent (weight 40 kg), the evaluation completes
and every finding it emits carries verdict Pass — the evaluator
affected by the absent dose emits a Pass finding, not a Warning/Fail
one. -/
theorem missing_dose_pass_counterexample :
    c7data.dose_R = none ∧
    pharmacotherapy_eval c7data =
      Except.ok [dur_pass "Pleural TB", rif_ok, pza_ok, regimen_structure_ok] ∧
    rif_ok.verdict = Verdict.Pass ∧
    (dur_pass "Pleural TB").verdict = Verdict.Pass ∧
    pza_ok.verdict = Verdict.Pass ∧
    regimen_structure_ok.verdict = Verdict.Pass := by
  refine ⟨rfl, ?_, rfl, rfl, rfl, rfl⟩
  have hdur : duration_check (some "Pleural TB") 6 = Except.ok (dur_pass "Pleural TB") := rfl
  have hrif : rifampicin_check 40 0 = rif_ok := by
    unfold rifampicin_check
    rw [if_neg ?hna, if_neg ?hnb]
    case hna =>
      rintro ⟨h, -⟩
      exact absurd h (by norm_num)
    case hnb =>
      rintro ⟨-, h⟩
      exact absurd h (by norm_num)
  have hpza : pyrazinamide_check 40 1000 = pza_ok := by
    simp only [pyrazinamide_check]
    rw [if_neg (by norm_num), if_neg (by norm_num)]
  rw [pharmacotherapy_eval_eq]
  simp [c7data, hdur, hrif, hpza, Except.map, regimen_structure_check]

/-- C7 amended: whenever the eptb type key is present, the evaluation
completes without error with at least one finding from each evaluator,
and absent dose/duration keys are read as 0 — the result equals the
one on the record with those keys explicitly set to 0. -/
theorem eval_total_amended (d : PatientData) (h : d.eptb_type.isSome = true) :
    (∃ fs, pharmacotherapy_eval d = Except.ok fs ∧ 4 ≤ fs.length) ∧
    pharmacotherapy_eval d = pharmacotherapy_eval (fillAbsentNumericZero d) := by
  obtain ⟨t, ht⟩ := Option.isSome_iff_exists.mp h
  constructor
  · obtain ⟨f, hf⟩ := duration_check_some_ok t (d.ip_duration.getD 0 + d.cp_duration.getD 0)
    rw [pharmacotherapy_eval_eq, ht, hf]
    refine ⟨_, rfl, ?_⟩
    simp [regimen_structure_check]
  · rw [pharmacotherapy_eval_eq, pharmacotherapy_eval_eq]
    simp [fillAbsentNumericZero, regimen_structure_check]

/-- Witness for C7: the amended statement at the concrete record whose
Rifampicin dose key is absent. -/
theorem eval_total_amended_witness :
    (∃ fs, pharmacotherapy_eval c7data = Except.ok fs ∧ 4 ≤ fs.length) ∧
    pharmacotherapy_eval c7data = pharmacotherapy_eval (fillAbsentNumericZero c7data) :=
  eval_total_amended c7data rfl

end EPTB
